import Mathlib

/-!
Verification development for the detector-model core of AP2_Master
(`src/core/geometry/DetectorModel.cpp`).

The C++ source is embedded shallowly:
* ROOT 2D/3D vectors become records of rationals (`V2`, `V3`);
  `double` arithmetic is modelled exactly over `ℚ`.
* The configuration reader (repository code outside this translation unit)
  is modelled from the spec as typed key/value sections.
* Fallible construction becomes `Except ConfigError DetectorModel`.
-/

/-- 2D vector (ROOT `XYVector`), components modelled as rationals. -/
structure V2 where
  x : ℚ
  y : ℚ
deriving DecidableEq

/-- 3D vector (ROOT `XYZVector` / `XYZPoint`), components modelled as rationals. -/
structure V3 where
  x : ℚ
  y : ℚ
  z : ℚ
deriving DecidableEq

instance : Add V3 := ⟨fun a b => ⟨a.x + b.x, a.y + b.y, a.z + b.z⟩⟩

/-- Modelled from the spec: the configuration reader supplies typed values
(unsigned-integer pair, 2D float vector, 3D float vector, scalar float, string);
the reader implementation is not part of this translation unit. -/
inductive ConfigValue where
  | scalar (v : ℚ)
  | vec2 (x y : ℚ)
  | vec3 (x y z : ℚ)
  | str (s : String)
  | upair (a b : ℕ)
deriving DecidableEq

/-- Modelled from the spec: one configuration section with a name
(empty for unnamed/global sections) and key/value entries. -/
structure Configuration where
  name : String
  entries : List (String × ConfigValue)
deriving DecidableEq

/-- First value stored under a key, if any. -/
def findVal : List (String × ConfigValue) → String → Option ConfigValue
  | [], _ => none
  | (k, v) :: rest, key => if k = key then some v else findVal rest key

def Configuration.get? (c : Configuration) (k : String) : Option ConfigValue :=
  findVal c.entries k

/-- Modelled from the spec: error taxonomy of construction
(MissingRequiredKey, SchemaMismatch, InvalidValue, InvalidEnumValue).
The exception classes live outside this translation unit; the source's
`throw InvalidValueError(...)` sites map to `invalidValue` with the named key,
missing-key and wrong-schema reader failures map to `missingKey`/`mismatch`.
`invalidEnum` represents the spec's separate InvalidEnumValue category. -/
inductive ConfigError where
  | missingKey (key : String)
  | mismatch (key : String)
  | invalidValue (key : String)
  | invalidEnum (key : String)
deriving DecidableEq

/-- Modelled from the spec: `get<double>(key)` — fails when the key is absent
or the stored value is not a scalar. -/
def getScalar (c : Configuration) (k : String) : Except ConfigError ℚ :=
  match c.get? k with
  | none => .error (.missingKey k)
  | some (.scalar v) => .ok v
  | some _ => .error (.mismatch k)

/-- Modelled from the spec: `get<double>(key, default)` — returns the default
when the key is absent, fails only on a wrong-schema value. -/
def getScalarD (c : Configuration) (k : String) (d : ℚ) : Except ConfigError ℚ :=
  match c.get? k with
  | none => .ok d
  | some (.scalar v) => .ok v
  | some _ => .error (.mismatch k)

/-- Modelled from the spec: `get<XYVector>(key)`. -/
def getV2 (c : Configuration) (k : String) : Except ConfigError V2 :=
  match c.get? k with
  | none => .error (.missingKey k)
  | some (.vec2 x y) => .ok ⟨x, y⟩
  | some _ => .error (.mismatch k)

/-- Modelled from the spec: `get<XYVector>(key, default)`. -/
def getV2D (c : Configuration) (k : String) (d : V2) : Except ConfigError V2 :=
  match c.get? k with
  | none => .ok d
  | some (.vec2 x y) => .ok ⟨x, y⟩
  | some _ => .error (.mismatch k)

/-- Modelled from the spec: `get<XYZVector>(key)`. -/
def getV3 (c : Configuration) (k : String) : Except ConfigError V3 :=
  match c.get? k with
  | none => .error (.missingKey k)
  | some (.vec3 x y z) => .ok ⟨x, y, z⟩
  | some _ => .error (.mismatch k)

/-- Modelled from the spec: `get<std::string>(key, default)`. -/
def getStrD (c : Configuration) (k : String) (d : String) : Except ConfigError String :=
  match c.get? k with
  | none => .ok d
  | some (.str s) => .ok s
  | some _ => .error (.mismatch k)

/-- Modelled from the spec: `get<DisplacementVector2D<Cartesian2D<unsigned int>>>(key)`. -/
def getUPair (c : Configuration) (k : String) : Except ConfigError (ℕ × ℕ) :=
  match c.get? k with
  | none => .error (.missingKey k)
  | some (.upair a b) => .ok (a, b)
  | some _ => .error (.mismatch k)

/-- Modelled from the spec: the configuration reader holds one header section
plus all sections of the source file in declaration order. -/
structure ConfigReader where
  header : Configuration
  sections : List Configuration
deriving DecidableEq

def ConfigReader.getHeaderConfiguration (r : ConfigReader) : Configuration :=
  r.header

/-- Modelled from the spec: `getConfigurations(name)` — the repeated sections
with the given name, in declaration order. -/
def ConfigReader.getConfigurationsNamed (r : ConfigReader) (n : String) : List Configuration :=
  r.sections.filter (fun c => c.name = n)

/-- Modelled from the spec: `Configuration::merge` — keys of the merged-in
(later) section override those of the receiver on conflict. -/
def Configuration.merge (a b : Configuration) : Configuration :=
  ⟨a.name, b.entries ++ a.entries⟩

/-- Support layer as stored by `addSupportLayer`: the 2D size and the thickness
are packed into `size_` with `size_.z` the thickness (usage in
`getSupportLayers` and `getSize`). `center_` is a scratch field recomputed by
`getSupportLayers`; it is initialised to zero. -/
structure SupportLayer where
  size_ : V3
  offset_ : V3
  material_ : String
  location_ : String
  hole_size_ : V2
  hole_offset_ : V2
  center_ : V3
deriving DecidableEq

/-- The stored fields of `allpix::DetectorModel` set by the constructor. -/
structure DetectorModel where
  type_ : String
  reader_ : ConfigReader
  number_of_pixels_ : ℕ × ℕ
  pixel_size_ : V2
  sensor_thickness_ : ℚ
  sensor_excess_top_ : ℚ
  sensor_excess_bottom_ : ℚ
  sensor_excess_left_ : ℚ
  sensor_excess_right_ : ℚ
  implant_size_ : V3
  implant_material_ : String
  implant_offset_ : V2
  chip_thickness_ : ℚ
  support_layers_ : List SupportLayer
deriving DecidableEq

/-- Implant-size resolution (DetectorModel.cpp lines 38-46): try the 3D read;
on any `ConfigurationError` (key absent or wrong schema) fall back to the 2D
read defaulting to the full pixel size, with the third component set to 0.
A failure of the fallback read itself is not caught. -/
def resolveImplantSize (c : Configuration) (pixel_size : V2) : Except ConfigError V3 :=
  match getV3 c "implant_size" with
  | .ok v => .ok v
  | .error _ =>
    match getV2D c "implant_size" pixel_size with
    | .ok a => .ok ⟨a.x, a.y, 0⟩
    | .error e => .error e

/-- Per-character lower-casing of `std::transform(s.begin(), s.end(), s.begin(), ::tolower)`. -/
def lowerString (s : String) : String := String.mk (s.data.map Char.toLower)

/-- The location-dependent offset read of a `support` section
(DetectorModel.cpp lines 77-83): an absolute layer requires an explicit 3D
offset, a sensor/chip layer reads a 2D offset defaulting to zero with z = 0. -/
def readSupportOffset (c : Configuration) (location : String) : Except ConfigError V3 :=
  if location = "absolute" then
    getV3 c "offset"
  else
    match getV2D c "offset" ⟨0, 0⟩ with
    | .ok xy_offset => .ok ⟨xy_offset.x, xy_offset.y, 0⟩
    | .error e => .error e

/-- One repeated `support` section (DetectorModel.cpp lines 68-90). -/
def readSupport (c : Configuration) : Except ConfigError SupportLayer := do
  let thickness ← getScalar c "thickness"
  let size ← getV2 c "size"
  let location0 ← getStrD c "location" "chip"
  let location := lowerString location0
  if ¬(location = "sensor" ∨ location = "chip" ∨ location = "absolute") then
    throw (ConfigError.invalidValue "location")
  let offset ← readSupportOffset c location
  let material0 ← getStrD c "material" "g10"
  let material := lowerString material0
  let hole_size ← getV2D c "hole_size" ⟨0, 0⟩
  let hole_offset ← getV2D c "hole_offset" ⟨0, 0⟩
  pure { size_ := ⟨size.x, size.y, thickness⟩, offset_ := offset, material_ := material,
         location_ := location, hole_size_ := hole_size, hole_offset_ := hole_offset,
         center_ := ⟨0, 0, 0⟩ }

/-- All `support` sections, read in declaration order. -/
def readSupports : List Configuration → Except ConfigError (List SupportLayer)
  | [] => .ok []
  | c :: cs => do
    let l ← readSupport c
    let ls ← readSupports cs
    pure (l :: ls)

/-- The `DetectorModel` constructor (DetectorModel.cpp lines 16-91).
The z-extent bound on line 50 compares against `getSensorSize().z()`, which is
the sensor thickness (the getter lives in `DetectorModel.hpp`, outside this
translation unit; the spec fixes the sensor size z-component to the thickness). -/
def construct (ty : String) (reader : ConfigReader) : Except ConfigError DetectorModel := do
  let config := reader.getHeaderConfiguration
  let number_of_pixels ← getUPair config "number_of_pixels"
  let pixel_size ← getV2 config "pixel_size"
  let sensor_thickness ← getScalar config "sensor_thickness"
  let default_sensor_excess ← getScalarD config "sensor_excess" 0
  let sensor_excess_top ← getScalarD config "sensor_excess_top" default_sensor_excess
  let sensor_excess_bottom ← getScalarD config "sensor_excess_bottom" default_sensor_excess
  let sensor_excess_left ← getScalarD config "sensor_excess_left" default_sensor_excess
  let sensor_excess_right ← getScalarD config "sensor_excess_right" default_sensor_excess
  let implant_size ← resolveImplantSize config pixel_size
  if implant_size.x > pixel_size.x ∨ implant_size.y > pixel_size.y then
    throw (ConfigError.invalidValue "implant_size")
  if implant_size.z > sensor_thickness then
    throw (ConfigError.invalidValue "implant_size")
  let implant_material ← getStrD config "implant_material" "aluminum"
  let implant_offset ← getV2D config "implant_offset" ⟨0, 0⟩
  if |implant_offset.x| + implant_size.x / 2 > pixel_size.x / 2 ∨
     |implant_offset.y| + implant_size.y / 2 > pixel_size.y / 2 then
    throw (ConfigError.invalidValue "implant_offset")
  let chip_thickness ← getScalarD config "chip_thickness" 0
  let support_layers ← readSupports (reader.getConfigurationsNamed "support")
  pure { type_ := ty, reader_ := reader, number_of_pixels_ := number_of_pixels,
         pixel_size_ := pixel_size, sensor_thickness_ := sensor_thickness,
         sensor_excess_top_ := sensor_excess_top, sensor_excess_bottom_ := sensor_excess_bottom,
         sensor_excess_left_ := sensor_excess_left, sensor_excess_right_ := sensor_excess_right,
         implant_size_ := implant_size, implant_material_ := implant_material,
         implant_offset_ := implant_offset, chip_thickness_ := chip_thickness,
         support_layers_ := support_layers }

/-- Modelled from the spec: `getSensorSize` (DetectorModel.hpp, not part of
this translation unit) — the pixel grid extended by the per-side excesses in
x/y, with z equal to the sensor thickness. -/
def DetectorModel.getSensorSize (m : DetectorModel) : V3 :=
  ⟨(m.number_of_pixels_.1 : ℚ) * m.pixel_size_.x + m.sensor_excess_left_ + m.sensor_excess_right_,
   (m.number_of_pixels_.2 : ℚ) * m.pixel_size_.y + m.sensor_excess_top_ + m.sensor_excess_bottom_,
   m.sensor_thickness_⟩

/-- Modelled from the spec: `getChipSize` (DetectorModel.hpp) — chip shares the
sensor's x/y extent, with z equal to the chip thickness. -/
def DetectorModel.getChipSize (m : DetectorModel) : V3 :=
  ⟨m.getSensorSize.x, m.getSensorSize.y, m.chip_thickness_⟩

/-- Modelled from the spec: `getCenter` (DetectorModel.hpp) — the user-declared
reference center, the center of the pixel grid relative to the first pixel, z = 0. -/
def DetectorModel.getCenter (m : DetectorModel) : V3 :=
  ⟨((m.number_of_pixels_.1 : ℚ) * m.pixel_size_.x) / 2 - m.pixel_size_.x / 2,
   ((m.number_of_pixels_.2 : ℚ) * m.pixel_size_.y) / 2 - m.pixel_size_.y / 2,
   0⟩

/-- Modelled from the spec: `getSensorCenter` (DetectorModel.hpp) — the model
center shifted in-plane by the excess asymmetry. -/
def DetectorModel.getSensorCenter (m : DetectorModel) : V3 :=
  m.getCenter + ⟨(m.sensor_excess_right_ - m.sensor_excess_left_) / 2,
                 (m.sensor_excess_top_ - m.sensor_excess_bottom_) / 2, 0⟩

/-- Modelled from the spec: `getChipCenter` (DetectorModel.hpp) — the chip sits
outward from the sensor's back face. -/
def DetectorModel.getChipCenter (m : DetectorModel) : V3 :=
  m.getCenter + ⟨(m.sensor_excess_right_ - m.sensor_excess_left_) / 2,
                 (m.sensor_excess_top_ - m.sensor_excess_bottom_) / 2,
                 m.getSensorSize.z / 2 + m.getChipSize.z / 2⟩

/-- The stacking loop of `getSupportLayers` (DetectorModel.cpp lines 155-166):
traverse the (copied) layer sequence, threading the two offset accumulators,
overwriting the z offset for sensor/chip-located layers and writing the
resulting center into the copy. -/
def stackLayers (sensor_offset chip_offset : ℚ) (center : V3) :
    List SupportLayer → List SupportLayer
  | [] => []
  | layer :: rest =>
    if layer.location_ = "sensor" then
      { layer with
        center_ := center + ⟨layer.offset_.x, layer.offset_.y,
                             sensor_offset - layer.size_.z / 2⟩ } ::
        stackLayers (sensor_offset - layer.size_.z) chip_offset center rest
    else if layer.location_ = "chip" then
      { layer with
        center_ := center + ⟨layer.offset_.x, layer.offset_.y,
                             chip_offset + layer.size_.z / 2⟩ } ::
        stackLayers sensor_offset (chip_offset + layer.size_.z) center rest
    else
      { layer with center_ := center + layer.offset_ } ::
        stackLayers sensor_offset chip_offset center rest

/-- `getSupportLayers` (DetectorModel.cpp lines 150-169): work on a fresh copy
of the stored sequence, with accumulators seeded from the sensor front face and
the chip back face. -/
def DetectorModel.getSupportLayers (m : DetectorModel) : List SupportLayer :=
  stackLayers (-(m.getSensorSize.z) / 2) (m.getSensorSize.z / 2 + m.getChipSize.z)
    m.getCenter m.support_layers_

/-- The loop of `getConfigurations` (DetectorModel.cpp lines 98-106): merge the
unnamed sections into the running global configuration, collect the named ones. -/
def splitConfigs : Configuration → List Configuration → Configuration × List Configuration
  | g, [] => (g, [])
  | g, c :: cs =>
    if c.name = "" then
      splitConfigs (g.merge c) cs
    else
      let r := splitConfigs g cs
      (r.1, c :: r.2)

/-- `getConfigurations` (DetectorModel.cpp lines 93-111): the merged global
configuration prepended to the named sections. -/
def DetectorModel.getConfigurations (m : DetectorModel) : List Configuration :=
  let r := splitConfigs m.reader_.getHeaderConfiguration m.reader_.sections
  r.1 :: r.2

/-- One max-corner update of the `getSize` loops (DetectorModel.cpp
lines 123-125 and 134-136). -/
def updMax (acc : V3) (p : V3 × V3) : V3 :=
  ⟨max acc.x (p.1.x + p.2.x / 2), max acc.y (p.1.y + p.2.y / 2), max acc.z (p.1.z + p.2.z / 2)⟩

/-- One min-corner update of the `getSize` loops (DetectorModel.cpp
lines 126-128 and 137-139). -/
def updMin (acc : V3) (p : V3 × V3) : V3 :=
  ⟨min acc.x (p.1.x - p.2.x / 2), min acc.y (p.1.y - p.2.y / 2), min acc.z (p.1.z - p.2.z / 2)⟩

/-- The element list traversed by `getSize`: sensor, chip, then every support
layer with its derived center. -/
def DetectorModel.sizeElems (m : DetectorModel) : List (V3 × V3) :=
  (m.getSensorCenter, m.getSensorSize) :: (m.getChipCenter, m.getChipSize) ::
    m.getSupportLayers.map (fun l => (l.center_, l.size_))

/-- `getSize` (DetectorModel.cpp lines 113-148). The C++ corner accumulators
are seeded with `±numeric_limits<double>`; the first traversed element (the
sensor) replaces that seed on every axis, so the fold is seeded with the sensor
element's corners. -/
def DetectorModel.getSize (m : DetectorModel) : V3 :=
  let rest := (m.getChipCenter, m.getChipSize) ::
    m.getSupportLayers.map (fun l => (l.center_, l.size_))
  let mx := rest.foldl updMax
    ⟨m.getSensorCenter.x + m.getSensorSize.x / 2, m.getSensorCenter.y + m.getSensorSize.y / 2,
     m.getSensorCenter.z + m.getSensorSize.z / 2⟩
  let mn := rest.foldl updMin
    ⟨m.getSensorCenter.x - m.getSensorSize.x / 2, m.getSensorCenter.y - m.getSensorSize.y / 2,
     m.getSensorCenter.z - m.getSensorSize.z / 2⟩
  ⟨2 * max (mx.x - m.getCenter.x) (m.getCenter.x - mn.x),
   2 * max (mx.y - m.getCenter.y) (m.getCenter.y - mn.y),
   (mx.z - m.getCenter.z) + (m.getCenter.z - mn.z)⟩

/-! ### Claim-side definitions

Quantities the specification speaks about, written independently of the
loop-with-accumulator shape of the source: prefix sums of same-location
thicknesses, per-axis corner extrema, and the merged global configuration. -/

/-- Total `size_.z` (thickness) of the layers with the given location among the
first `i` layers of the sequence. -/
def sumZBefore (loc : String) : List SupportLayer → ℕ → ℚ
  | [], _ => 0
  | _ :: _, 0 => 0
  | l :: ls, i + 1 => (if l.location_ = loc then l.size_.z else 0) + sumZBefore loc ls i

/-- The offset the specification assigns to the layer at position `i`, given
the initial accumulator values `so` (sensor side) and `co` (chip side):
sensor-located layers move outward by the thicknesses of the preceding
sensor-located layers, chip-located layers likewise on the chip side, and any
other (absolute) location keeps its declared 3D offset. -/
def claimOffset (so co : ℚ) (ls : List SupportLayer) (i : ℕ) (l : SupportLayer) : V3 :=
  if l.location_ = "sensor" then
    ⟨l.offset_.x, l.offset_.y, so - sumZBefore "sensor" ls i - l.size_.z / 2⟩
  else if l.location_ = "chip" then
    ⟨l.offset_.x, l.offset_.y, co + sumZBefore "chip" ls i + l.size_.z / 2⟩
  else
    l.offset_

/-- Upper corner coordinate of an element `(center, size)` on one axis. -/
def hiOf (f : V3 → ℚ) (p : V3 × V3) : ℚ := f p.1 + f p.2 / 2

/-- Lower corner coordinate of an element `(center, size)` on one axis. -/
def loOf (f : V3 → ℚ) (p : V3 × V3) : ℚ := f p.1 - f p.2 / 2

/-- Maximum corner coordinate on one axis over a (nonempty) element list. -/
def maxAxis (f : V3 → ℚ) : List (V3 × V3) → ℚ
  | [] => 0
  | p :: ps => (ps.map (hiOf f)).foldl max (hiOf f p)

/-- Minimum corner coordinate on one axis over a (nonempty) element list. -/
def minAxis (f : V3 → ℚ) : List (V3 × V3) → ℚ
  | [] => 0
  | p :: ps => (ps.map (loOf f)).foldl min (loOf f p)

/-- The merged global section: every unnamed section merged into the header
configuration, in declaration order (later sections override earlier keys). -/
def mergedGlobal (r : ConfigReader) : Configuration :=
  (r.sections.filter (fun c => c.name = "")).foldl Configuration.merge r.header

/-! ### Concrete instances used by examples, witnesses and counterexamples -/

/-- Source with sensor thickness `0.3` and two sensor-located support layers of
thickness `1.0` then `2.0` (the stacking example of the spec). -/
def exReaderStack : ConfigReader :=
  ⟨⟨"", [("number_of_pixels", .upair 1 1), ("pixel_size", .vec2 1 1),
         ("sensor_thickness", .scalar (3 / 10))]⟩,
   [⟨"support", [("thickness", .scalar 1), ("size", .vec2 1 1), ("location", .str "sensor")]⟩,
    ⟨"support", [("thickness", .scalar 2), ("size", .vec2 1 1), ("location", .str "sensor")]⟩]⟩

/-- The model `construct` produces from `exReaderStack`. -/
def exModelStack : DetectorModel :=
  { type_ := "test", reader_ := exReaderStack, number_of_pixels_ := (1, 1),
    pixel_size_ := ⟨1, 1⟩, sensor_thickness_ := 3 / 10,
    sensor_excess_top_ := 0, sensor_excess_bottom_ := 0,
    sensor_excess_left_ := 0, sensor_excess_right_ := 0,
    implant_size_ := ⟨1, 1, 0⟩, implant_material_ := "aluminum",
    implant_offset_ := ⟨0, 0⟩, chip_thickness_ := 0,
    support_layers_ :=
      [⟨⟨1, 1, 1⟩, ⟨0, 0, 0⟩, "g10", "sensor", ⟨0, 0⟩, ⟨0, 0⟩, ⟨0, 0, 0⟩⟩,
       ⟨⟨1, 1, 2⟩, ⟨0, 0, 0⟩, "g10", "sensor", ⟨0, 0⟩, ⟨0, 0⟩, ⟨0, 0, 0⟩⟩] }

/-- The first and second stacked layers of `exModelStack` as returned by
`getSupportLayers`: z offsets `-0.65` and `-2.15` from the model center. -/
def exStackOut0 : SupportLayer :=
  ⟨⟨1, 1, 1⟩, ⟨0, 0, 0⟩, "g10", "sensor", ⟨0, 0⟩, ⟨0, 0⟩, ⟨0, 0, -13 / 20⟩⟩

def exStackOut1 : SupportLayer :=
  ⟨⟨1, 1, 2⟩, ⟨0, 0, 0⟩, "g10", "sensor", ⟨0, 0⟩, ⟨0, 0⟩, ⟨0, 0, -43 / 20⟩⟩

/-- Source with two zero-thickness sensor-located support layers. -/
def exReaderZero : ConfigReader :=
  ⟨⟨"", [("number_of_pixels", .upair 1 1), ("pixel_size", .vec2 1 1),
         ("sensor_thickness", .scalar (3 / 10))]⟩,
   [⟨"support", [("thickness", .scalar 0), ("size", .vec2 1 1), ("location", .str "sensor")]⟩,
    ⟨"support", [("thickness", .scalar 0), ("size", .vec2 1 1), ("location", .str "sensor")]⟩]⟩

/-- The model `construct` produces from `exReaderZero`. -/
def exModelZero : DetectorModel :=
  { type_ := "test", reader_ := exReaderZero, number_of_pixels_ := (1, 1),
    pixel_size_ := ⟨1, 1⟩, sensor_thickness_ := 3 / 10,
    sensor_excess_top_ := 0, sensor_excess_bottom_ := 0,
    sensor_excess_left_ := 0, sensor_excess_right_ := 0,
    implant_size_ := ⟨1, 1, 0⟩, implant_material_ := "aluminum",
    implant_offset_ := ⟨0, 0⟩, chip_thickness_ := 0,
    support_layers_ :=
      [⟨⟨1, 1, 0⟩, ⟨0, 0, 0⟩, "g10", "sensor", ⟨0, 0⟩, ⟨0, 0⟩, ⟨0, 0, 0⟩⟩,
       ⟨⟨1, 1, 0⟩, ⟨0, 0, 0⟩, "g10", "sensor", ⟨0, 0⟩, ⟨0, 0⟩, ⟨0, 0, 0⟩⟩] }

/-- Both zero-thickness layers end up at the same center, `-0.15` below the
model center in z. -/
def exLayerZero : SupportLayer :=
  ⟨⟨1, 1, 0⟩, ⟨0, 0, 0⟩, "g10", "sensor", ⟨0, 0⟩, ⟨0, 0⟩, ⟨0, 0, -3 / 20⟩⟩

/-- Source declaring a negative pixel pitch (no validation rejects it). -/
def exReaderNeg : ConfigReader :=
  ⟨⟨"", [("number_of_pixels", .upair 1 1), ("pixel_size", .vec2 (-2) (-2)),
         ("sensor_thickness", .scalar 1)]⟩, []⟩

/-- The model `construct` produces from `exReaderNeg`. -/
def exModelNeg : DetectorModel :=
  { type_ := "test", reader_ := exReaderNeg, number_of_pixels_ := (1, 1),
    pixel_size_ := ⟨-2, -2⟩, sensor_thickness_ := 1,
    sensor_excess_top_ := 0, sensor_excess_bottom_ := 0,
    sensor_excess_left_ := 0, sensor_excess_right_ := 0,
    implant_size_ := ⟨-2, -2, 0⟩, implant_material_ := "aluminum",
    implant_offset_ := ⟨0, 0⟩, chip_thickness_ := 0,
    support_layers_ := [] }

/-- Reader for the configuration-merge example: two unnamed sections defining
keys `A` and `B`, one named `support` section. -/
def exReaderMerge : ConfigReader :=
  ⟨⟨"", []⟩,
   [⟨"", [("A", .scalar 1)]⟩, ⟨"", [("B", .scalar 2)]⟩,
    ⟨"support", [("thickness", .scalar 1)]⟩]⟩

/-- A model carrying `exReaderMerge` (only `reader_` matters to
`getConfigurations`). -/
def exModelMerge : DetectorModel :=
  { type_ := "test", reader_ := exReaderMerge, number_of_pixels_ := (1, 1),
    pixel_size_ := ⟨1, 1⟩, sensor_thickness_ := 1,
    sensor_excess_top_ := 0, sensor_excess_bottom_ := 0,
    sensor_excess_left_ := 0, sensor_excess_right_ := 0,
    implant_size_ := ⟨1, 1, 0⟩, implant_material_ := "aluminum",
    implant_offset_ := ⟨0, 0⟩, chip_thickness_ := 0,
    support_layers_ := [] }

/-- Source with a support section whose location token is outside the enum. -/
def exReaderLoc : ConfigReader :=
  ⟨⟨"", [("number_of_pixels", .upair 1 1), ("pixel_size", .vec2 1 1),
         ("sensor_thickness", .scalar 1)]⟩,
   [⟨"support", [("thickness", .scalar 1), ("size", .vec2 1 1), ("location", .str "Foo")]⟩]⟩

/-- Source setting only the shared `sensor_excess = 5`. -/
def exReaderEx5 : ConfigReader :=
  ⟨⟨"", [("number_of_pixels", .upair 1 1), ("pixel_size", .vec2 1 1),
         ("sensor_thickness", .scalar 1), ("sensor_excess", .scalar 5)]⟩, []⟩

/-- The model `construct` produces from `exReaderEx5`. -/
def exModelEx5 : DetectorModel :=
  { type_ := "test", reader_ := exReaderEx5, number_of_pixels_ := (1, 1),
    pixel_size_ := ⟨1, 1⟩, sensor_thickness_ := 1,
    sensor_excess_top_ := 5, sensor_excess_bottom_ := 5,
    sensor_excess_left_ := 5, sensor_excess_right_ := 5,
    implant_size_ := ⟨1, 1, 0⟩, implant_material_ := "aluminum",
    implant_offset_ := ⟨0, 0⟩, chip_thickness_ := 0,
    support_layers_ := [] }

/-- Source setting `sensor_excess = 5` and additionally `sensor_excess_top = 2`. -/
def exReaderEx52 : ConfigReader :=
  ⟨⟨"", [("number_of_pixels", .upair 1 1), ("pixel_size", .vec2 1 1),
         ("sensor_thickness", .scalar 1), ("sensor_excess", .scalar 5),
         ("sensor_excess_top", .scalar 2)]⟩, []⟩

/-- The model `construct` produces from `exReaderEx52`. -/
def exModelEx52 : DetectorModel :=
  { type_ := "test", reader_ := exReaderEx52, number_of_pixels_ := (1, 1),
    pixel_size_ := ⟨1, 1⟩, sensor_thickness_ := 1,
    sensor_excess_top_ := 2, sensor_excess_bottom_ := 5,
    sensor_excess_left_ := 5, sensor_excess_right_ := 5,
    implant_size_ := ⟨1, 1, 0⟩, implant_material_ := "aluminum",
    implant_offset_ := ⟨0, 0⟩, chip_thickness_ := 0,
    support_layers_ := [] }

/-- Source whose implant size exceeds the pixel pitch in x. -/
def exReaderBigImplant : ConfigReader :=
  ⟨⟨"", [("number_of_pixels", .upair 1 1), ("pixel_size", .vec2 1 1),
         ("sensor_thickness", .scalar 1), ("implant_size", .vec3 2 1 0)]⟩, []⟩

/-- Source whose `implant_size` value is a scalar: the 3D read fails, and the
fallback 2D read fails as well; that second failure is not caught. -/
def exReaderScalarImplant : ConfigReader :=
  ⟨⟨"", [("number_of_pixels", .upair 1 1), ("pixel_size", .vec2 1 1),
         ("sensor_thickness", .scalar 1), ("implant_size", .scalar 5)]⟩, []⟩

/-! ### Infrastructure lemmas -/

@[simp] theorem exceptBindOk {α β : Type} (a : α) (f : α → Except ConfigError β) :
    (Except.ok a >>= f) = f a := rfl

@[simp] theorem exceptBindErr {α β : Type} (e : ConfigError) (f : α → Except ConfigError β) :
    ((Except.error e : Except ConfigError α) >>= f) = Except.error e := rfl

@[simp] theorem exceptPure {α : Type} (a : α) : (pure a : Except ConfigError α) = Except.ok a := rfl

@[simp] theorem exceptThrow {α : Type} (e : ConfigError) :
    (throw e : Except ConfigError α) = Except.error e := rfl

@[simp] theorem V3.add_def (a b : V3) : a + b = ⟨a.x + b.x, a.y + b.y, a.z + b.z⟩ := rfl

/-! ### The stacking algorithm: closed form -/

theorem claimOffset_cons (so co : ℚ) (l : SupportLayer) (ls : List SupportLayer) (n : ℕ)
    (l2 : SupportLayer) :
    claimOffset so co (l :: ls) (n + 1) l2 =
      claimOffset (if l.location_ = "sensor" then so - l.size_.z else so)
        (if l.location_ = "chip" then co + l.size_.z else co) ls n l2 := by
  unfold claimOffset
  by_cases h1 : l.location_ = "sensor" <;> by_cases h2 : l.location_ = "chip" <;>
    simp [sumZBefore, h1, h2] <;> split_ifs <;> simp <;> ring

theorem stackLayers_getElem (so co : ℚ) (C : V3) (ls : List SupportLayer) (i : ℕ) :
    (stackLayers so co C ls)[i]? =
      (ls[i]?).map (fun l => { l with center_ := C + claimOffset so co ls i l }) := by
  induction ls generalizing so co i with
  | nil => simp [stackLayers]
  | cons l ls ih =>
    cases i with
    | zero =>
      by_cases h1 : l.location_ = "sensor" <;> by_cases h2 : l.location_ = "chip" <;>
        simp [stackLayers, h1, h2, claimOffset, sumZBefore]
    | succ n =>
      have hco := fun l2 => claimOffset_cons so co l ls n l2
      by_cases h1 : l.location_ = "sensor" <;> by_cases h2 : l.location_ = "chip" <;>
        simp [stackLayers, h1, h2, ih] <;>
        cases hg : ls[n]? <;> simp [hg, hco, h1, h2]

theorem getSupportLayers_getElem (m : DetectorModel) (i : ℕ) :
    m.getSupportLayers[i]? =
      (m.support_layers_[i]?).map
        (fun l => { l with center_ := (m.getCenter +
          claimOffset (-(m.sensor_thickness_) / 2) (m.sensor_thickness_ / 2 + m.chip_thickness_)
            m.support_layers_ i l) }) :=
  stackLayers_getElem (-(m.sensor_thickness_) / 2) (m.sensor_thickness_ / 2 + m.chip_thickness_)
    m.getCenter m.support_layers_ i

/-- C1: each support layer's center is the model center plus its offset; the
z-offset of a sensor-located (resp. chip-located) layer starts from
`-sensorThickness/2` (resp. `sensorThickness/2 + chipThickness`) and moves
outward by the thicknesses of the preceding same-location layers plus half its
own thickness, while an absolute-location layer keeps its declared 3D offset;
with sensor thickness `0.3` and two sensor-located layers of thickness `1.0`
then `2.0`, the z-offsets are `-0.65` and `-2.15`. -/
theorem claim_C1 :
    (∀ (m : DetectorModel) (i : ℕ),
      m.getSupportLayers[i]? =
        (m.support_layers_[i]?).map
          (fun l => { l with center_ := (m.getCenter +
            claimOffset (-(m.sensor_thickness_) / 2) (m.sensor_thickness_ / 2 + m.chip_thickness_)
              m.support_layers_ i l) })) ∧
    construct "test" exReaderStack = .ok exModelStack ∧
    exModelStack.sensor_thickness_ = 3 / 10 ∧
    exModelStack.getSupportLayers = [exStackOut0, exStackOut1] ∧
    exStackOut0.center_.z - exModelStack.getCenter.z = -(13 / 20) ∧
    exStackOut1.center_.z - exModelStack.getCenter.z = -(43 / 20) := by
  refine ⟨getSupportLayers_getElem, ?_, rfl, ?_, ?_, ?_⟩
  · norm_num +decide [construct, exReaderStack, exModelStack, ConfigReader.getHeaderConfiguration,
      ConfigReader.getConfigurationsNamed, getUPair, getV2, getScalar, getScalarD, getStrD,
      getV2D, getV3, Configuration.get?, findVal, resolveImplantSize, readSupports, readSupport, readSupportOffset,
      lowerString]
  · norm_num [DetectorModel.getSupportLayers, stackLayers, exModelStack, exStackOut0, exStackOut1,
      DetectorModel.getSensorSize, DetectorModel.getChipSize, DetectorModel.getCenter]
  · norm_num [exStackOut0, exModelStack, DetectorModel.getCenter]
  · norm_num [exStackOut1, exModelStack, DetectorModel.getCenter]

@[simp] theorem sumZBefore_zero (loc : String) (ls : List SupportLayer) :
    sumZBefore loc ls 0 = 0 := by
  cases ls <;> rfl

theorem sumZBefore_succ_get (loc : String) (ls : List SupportLayer) (n : ℕ) (l : SupportLayer)
    (h : ls[n]? = some l) :
    sumZBefore loc ls (n + 1) =
      sumZBefore loc ls n + (if l.location_ = loc then l.size_.z else 0) := by
  induction ls generalizing n with
  | nil => simp at h
  | cons a as ih =>
    cases n with
    | zero =>
      simp at h
      subst h
      simp [sumZBefore]
    | succ n2 =>
      simp at h
      simp [sumZBefore, ih n2 h]
      ring

theorem sumZBefore_nonneg (loc : String) (ls : List SupportLayer)
    (h : ∀ l ∈ ls, 0 ≤ l.size_.z) (i : ℕ) : 0 ≤ sumZBefore loc ls i := by
  induction ls generalizing i with
  | nil => simp [sumZBefore]
  | cons a as ih =>
    cases i with
    | zero => simp [sumZBefore]
    | succ n =>
      have ha : 0 ≤ a.size_.z := h a (by simp)
      have has : ∀ l ∈ as, 0 ≤ l.size_.z := fun l hl => h l (by simp [hl])
      have := ih has n
      simp only [sumZBefore]
      split_ifs <;> linarith

theorem sumZBefore_mono (loc : String) (ls : List SupportLayer)
    (h : ∀ l ∈ ls, 0 ≤ l.size_.z) (i j : ℕ) (hij : i ≤ j) :
    sumZBefore loc ls i ≤ sumZBefore loc ls j := by
  induction ls generalizing i j with
  | nil => simp [sumZBefore]
  | cons a as ih =>
    have ha : 0 ≤ a.size_.z := h a (by simp)
    have has : ∀ l ∈ as, 0 ≤ l.size_.z := fun l hl => h l (by simp [hl])
    cases i with
    | zero =>
      cases j with
      | zero => simp
      | succ n =>
        have := sumZBefore_nonneg loc as has n
        simp only [sumZBefore]
        split_ifs <;> linarith
    | succ n =>
      cases j with
      | zero => omega
      | succ n2 =>
        have := ih has n n2 (by omega)
        simp only [sumZBefore]
        split_ifs <;> linarith

theorem sumZBefore_lt_of_get (loc : String) (ls : List SupportLayer)
    (h : ∀ l ∈ ls, 0 ≤ l.size_.z) (i j : ℕ) (hij : i < j) (l : SupportLayer)
    (hget : ls[i]? = some l) (hloc : l.location_ = loc) :
    sumZBefore loc ls i + l.size_.z ≤ sumZBefore loc ls j := by
  have h1 : sumZBefore loc ls (i + 1) = sumZBefore loc ls i + l.size_.z := by
    rw [sumZBefore_succ_get loc ls i l hget, if_pos hloc]
  have h2 : sumZBefore loc ls (i + 1) ≤ sumZBefore loc ls j :=
    sumZBefore_mono loc ls h (i + 1) j (by omega)
  linarith

/-- C2 (amended): same-location layers with positive thickness stack strictly
in declaration order — the later of two sensor-located (resp. chip-located)
layers is placed strictly lower (resp. higher) in z, hence strictly farther
from the sensor front face (resp. the chip back face). -/
theorem claim_C2_amended (m : DetectorModel) (i j : ℕ) (li lj : SupportLayer)
    (hpos : ∀ l ∈ m.support_layers_, 0 < l.size_.z) (hij : i < j)
    (hi : m.getSupportLayers[i]? = some li) (hj : m.getSupportLayers[j]? = some lj) :
    (li.location_ = "sensor" → lj.location_ = "sensor" → lj.center_.z < li.center_.z) ∧
    (li.location_ = "chip" → lj.location_ = "chip" → li.center_.z < lj.center_.z) := by
  have hnn : ∀ l ∈ m.support_layers_, 0 ≤ l.size_.z := fun l hl => le_of_lt (hpos l hl)
  rw [getSupportLayers_getElem] at hi hj
  cases hgi : m.support_layers_[i]? with
  | none => rw [hgi] at hi; simp at hi
  | some l1 =>
    cases hgj : m.support_layers_[j]? with
    | none => rw [hgj] at hj; simp at hj
    | some l2 =>
      rw [hgi] at hi
      rw [hgj] at hj
      simp only [Option.map_some', Option.some.injEq] at hi hj
      have hm1 : l1 ∈ m.support_layers_ := List.getElem?_mem hgi
      have hm2 : l2 ∈ m.support_layers_ := List.getElem?_mem hgj
      have hp1 : 0 < l1.size_.z := hpos l1 hm1
      have hp2 : 0 < l2.size_.z := hpos l2 hm2
      subst hi
      subst hj
      constructor
      · intro hs1 hs2
        have hl1 : l1.location_ = "sensor" := hs1
        have hl2 : l2.location_ = "sensor" := hs2
        have hsum := sumZBefore_lt_of_get "sensor" m.support_layers_ hnn i j hij l1 hgi hl1
        simp [claimOffset, hl1, hl2]
        linarith
      · intro hs1 hs2
        have hl1 : l1.location_ = "chip" := hs1
        have hl2 : l2.location_ = "chip" := hs2
        have hsum := sumZBefore_lt_of_get "chip" m.support_layers_ hnn i j hij l1 hgi hl1
        have hcs1 : ¬ l1.location_ = "sensor" := by rw [hl1]; simp
        have hcs2 : ¬ l2.location_ = "sensor" := by rw [hl2]; simp
        simp [claimOffset, hl1, hl2, hcs1, hcs2]
        linarith

/-- C2 (counterexample): construction accepts zero-thickness support layers;
with two zero-thickness sensor-located layers both stacked centers coincide, so
the later layer is not strictly farther from the sensor front face. -/
theorem claim_C2_counterexample :
    construct "test" exReaderZero = .ok exModelZero ∧
    exModelZero.getSupportLayers[0]? = some exLayerZero ∧
    exModelZero.getSupportLayers[1]? = some exLayerZero ∧
    exLayerZero.location_ = "sensor" ∧
    ¬(exLayerZero.center_.z < exLayerZero.center_.z) := by
  refine ⟨?_, ?_, ?_, rfl, lt_irrefl _⟩
  · norm_num +decide [construct, exReaderZero, exModelZero, ConfigReader.getHeaderConfiguration,
      ConfigReader.getConfigurationsNamed, getUPair, getV2, getScalar, getScalarD, getStrD,
      getV2D, getV3, Configuration.get?, findVal, resolveImplantSize, readSupports, readSupport, readSupportOffset,
      lowerString]
  · norm_num [DetectorModel.getSupportLayers, stackLayers, exModelZero, exLayerZero,
      DetectorModel.getSensorSize, DetectorModel.getChipSize, DetectorModel.getCenter]
  · norm_num [DetectorModel.getSupportLayers, stackLayers, exModelZero, exLayerZero,
      DetectorModel.getSensorSize, DetectorModel.getChipSize, DetectorModel.getCenter]

theorem stackLayers_map_field {β : Type} (f : SupportLayer → β)
    (hf : ∀ (l : SupportLayer) (c : V3), f { l with center_ := c } = f l)
    (so co : ℚ) (C : V3) (ls : List SupportLayer) :
    (stackLayers so co C ls).map f = ls.map f := by
  induction ls generalizing so co with
  | nil => simp [stackLayers]
  | cons l ls ih =>
    simp only [stackLayers]
    split_ifs <;> simp only [List.map_cons, ih] <;> rw [hf]

theorem stackLayers_length (so co : ℚ) (C : V3) (ls : List SupportLayer) :
    (stackLayers so co C ls).length = ls.length := by
  induction ls generalizing so co with
  | nil => rfl
  | cons l ls ih =>
    simp only [stackLayers]
    split_ifs <;> simp [ih]

/-- C9: the queries are pure functions of the stored fields — `getSupportLayers`
works on a fresh copy, rewriting only the scratch `center_` field and leaving
the declared offsets, sizes, locations, materials and holes of the stored
sequence intact, and repeated calls to any query agree. -/
theorem claim_C9 (m : DetectorModel) :
    m.getSupportLayers.map SupportLayer.offset_ = m.support_layers_.map SupportLayer.offset_ ∧
    m.getSupportLayers.map SupportLayer.size_ = m.support_layers_.map SupportLayer.size_ ∧
    m.getSupportLayers.map SupportLayer.location_ =
      m.support_layers_.map SupportLayer.location_ ∧
    m.getSupportLayers.map SupportLayer.material_ =
      m.support_layers_.map SupportLayer.material_ ∧
    m.getSupportLayers.map SupportLayer.hole_size_ =
      m.support_layers_.map SupportLayer.hole_size_ ∧
    m.getSupportLayers.map SupportLayer.hole_offset_ =
      m.support_layers_.map SupportLayer.hole_offset_ ∧
    m.getSupportLayers.length = m.support_layers_.length ∧
    m.getSupportLayers = m.getSupportLayers ∧
    m.getSize = m.getSize ∧
    m.getConfigurations = m.getConfigurations := by
  refine ⟨?_, ?_, ?_, ?_, ?_, ?_, ?_, rfl, rfl, rfl⟩
  · exact stackLayers_map_field SupportLayer.offset_ (fun l c => rfl) _ _ _ _
  · exact stackLayers_map_field SupportLayer.size_ (fun l c => rfl) _ _ _ _
  · exact stackLayers_map_field SupportLayer.location_ (fun l c => rfl) _ _ _ _
  · exact stackLayers_map_field SupportLayer.material_ (fun l c => rfl) _ _ _ _
  · exact stackLayers_map_field SupportLayer.hole_size_ (fun l c => rfl) _ _ _ _
  · exact stackLayers_map_field SupportLayer.hole_offset_ (fun l c => rfl) _ _ _ _
  · exact stackLayers_length _ _ _ _

/-! ### The bounding envelope: per-axis decomposition -/

theorem foldl_updMax_proj (f : V3 → ℚ)
    (hf : ∀ (acc : V3) (p : V3 × V3), f (updMax acc p) = max (f acc) (hiOf f p)) :
    ∀ (l : List (V3 × V3)) (acc : V3),
      f (l.foldl updMax acc) = (l.map (hiOf f)).foldl max (f acc) := by
  intro l
  induction l with
  | nil => intro acc; rfl
  | cons p ps ih =>
    intro acc
    simp only [List.foldl_cons, List.map_cons, ih, hf]

theorem foldl_updMin_proj (f : V3 → ℚ)
    (hf : ∀ (acc : V3) (p : V3 × V3), f (updMin acc p) = min (f acc) (loOf f p)) :
    ∀ (l : List (V3 × V3)) (acc : V3),
      f (l.foldl updMin acc) = (l.map (loOf f)).foldl min (f acc) := by
  intro l
  induction l with
  | nil => intro acc; rfl
  | cons p ps ih =>
    intro acc
    simp only [List.foldl_cons, List.map_cons, ih, hf]

theorem le_foldl_max (l : List ℚ) (a : ℚ) : a ≤ l.foldl max a := by
  induction l generalizing a with
  | nil => exact le_refl a
  | cons x xs ih => exact le_trans (le_max_left a x) (ih (max a x))

theorem foldl_min_le (l : List ℚ) (a : ℚ) : l.foldl min a ≤ a := by
  induction l generalizing a with
  | nil => exact le_refl a
  | cons x xs ih => exact le_trans (ih (min a x)) (min_le_left a x)

theorem getSize_eq_axes (m : DetectorModel) :
    m.getSize =
      ⟨2 * max (maxAxis V3.x m.sizeElems - m.getCenter.x)
          (m.getCenter.x - minAxis V3.x m.sizeElems),
       2 * max (maxAxis V3.y m.sizeElems - m.getCenter.y)
          (m.getCenter.y - minAxis V3.y m.sizeElems),
       (maxAxis V3.z m.sizeElems - m.getCenter.z) +
          (m.getCenter.z - minAxis V3.z m.sizeElems)⟩ := by
  simp only [DetectorModel.getSize, DetectorModel.sizeElems, maxAxis, minAxis]
  rw [foldl_updMax_proj V3.x (fun acc p => rfl), foldl_updMax_proj V3.y (fun acc p => rfl),
      foldl_updMax_proj V3.z (fun acc p => rfl), foldl_updMin_proj V3.x (fun acc p => rfl),
      foldl_updMin_proj V3.y (fun acc p => rfl), foldl_updMin_proj V3.z (fun acc p => rfl)]
  rfl

/-- C3: on x and y, `getSize` mirrors the larger one-sided extent of the corner
extrema accumulated over sensor, chip and every support layer into a symmetric
`2 * max(...)`; on z it sums the two true one-sided extents without
symmetrizing; with no support layers the element list reduces to the
sensor and chip elements alone. -/
theorem claim_C3 (m : DetectorModel) :
    m.getSize.x = 2 * max (maxAxis V3.x m.sizeElems - m.getCenter.x)
        (m.getCenter.x - minAxis V3.x m.sizeElems) ∧
    m.getSize.y = 2 * max (maxAxis V3.y m.sizeElems - m.getCenter.y)
        (m.getCenter.y - minAxis V3.y m.sizeElems) ∧
    m.getSize.z = (maxAxis V3.z m.sizeElems - m.getCenter.z) +
        (m.getCenter.z - minAxis V3.z m.sizeElems) ∧
    (m.support_layers_ = [] →
      m.sizeElems = [(m.getSensorCenter, m.getSensorSize), (m.getChipCenter, m.getChipSize)]) := by
  refine ⟨?_, ?_, ?_, ?_⟩
  · rw [getSize_eq_axes]
  · rw [getSize_eq_axes]
  · rw [getSize_eq_axes]
  · intro h
    simp [DetectorModel.sizeElems, DetectorModel.getSupportLayers, h, stackLayers]

/-- C3 witness: instantiated at a model without support layers. -/
theorem claim_C3_witness :
    exModelNeg.sizeElems =
      [(exModelNeg.getSensorCenter, exModelNeg.getSensorSize),
       (exModelNeg.getChipCenter, exModelNeg.getChipSize)] :=
  (claim_C3 exModelNeg).2.2.2 rfl

/-- C10 (amended): all three components of `getSize` are non-negative for every
model whose sensor size is componentwise non-negative (as for any physically
meaningful configuration); the corner extrema are seeded from the sensor and
chip elements, so each accumulated maximum corner dominates the corresponding
minimum corner. -/
theorem claim_C10_amended (m : DetectorModel)
    (hx : 0 ≤ m.getSensorSize.x) (hy : 0 ≤ m.getSensorSize.y) (hz : 0 ≤ m.getSensorSize.z) :
    0 ≤ m.getSize.x ∧ 0 ≤ m.getSize.y ∧ 0 ≤ m.getSize.z := by
  have hsz := getSize_eq_axes m
  have hmx : ∀ f : V3 → ℚ, hiOf f (m.getSensorCenter, m.getSensorSize) ≤ maxAxis f m.sizeElems := by
    intro f
    simp only [DetectorModel.sizeElems, maxAxis]
    exact le_foldl_max _ _
  have hmn : ∀ f : V3 → ℚ, minAxis f m.sizeElems ≤ loOf f (m.getSensorCenter, m.getSensorSize) := by
    intro f
    simp only [DetectorModel.sizeElems, minAxis]
    exact foldl_min_le _ _
  have hdx : hiOf V3.x (m.getSensorCenter, m.getSensorSize) -
      loOf V3.x (m.getSensorCenter, m.getSensorSize) = m.getSensorSize.x := by
    simp [hiOf, loOf]
  have hdy : hiOf V3.y (m.getSensorCenter, m.getSensorSize) -
      loOf V3.y (m.getSensorCenter, m.getSensorSize) = m.getSensorSize.y := by
    simp [hiOf, loOf]
  have hdz : hiOf V3.z (m.getSensorCenter, m.getSensorSize) -
      loOf V3.z (m.getSensorCenter, m.getSensorSize) = m.getSensorSize.z := by
    simp [hiOf, loOf]
  have hsx := hmx V3.x
  have hsnx := hmn V3.x
  have hsy := hmx V3.y
  have hsny := hmn V3.y
  have hszz := hmx V3.z
  have hsnz := hmn V3.z
  rw [hsz]
  refine ⟨?_, ?_, ?_⟩
  · simp only
    have h1 := le_max_left (maxAxis V3.x m.sizeElems - m.getCenter.x)
      (m.getCenter.x - minAxis V3.x m.sizeElems)
    have h2 := le_max_right (maxAxis V3.x m.sizeElems - m.getCenter.x)
      (m.getCenter.x - minAxis V3.x m.sizeElems)
    linarith
  · simp only
    have h1 := le_max_left (maxAxis V3.y m.sizeElems - m.getCenter.y)
      (m.getCenter.y - minAxis V3.y m.sizeElems)
    have h2 := le_max_right (maxAxis V3.y m.sizeElems - m.getCenter.y)
      (m.getCenter.y - minAxis V3.y m.sizeElems)
    linarith
  · simp only
    linarith

/-- C10 witness: a concrete model with non-negative sensor size. -/
theorem claim_C10_amended_witness :
    0 ≤ exModelMerge.getSize.x ∧ 0 ≤ exModelMerge.getSize.y ∧ 0 ≤ exModelMerge.getSize.z :=
  claim_C10_amended exModelMerge
    (by norm_num [DetectorModel.getSensorSize, exModelMerge])
    (by norm_num [DetectorModel.getSensorSize, exModelMerge])
    (by norm_num [DetectorModel.getSensorSize, exModelMerge])

/-- C10 (counterexample): a constructible configuration with negative pixel
pitch (nothing validates its sign) yields a negative `getSize` x-component. -/
theorem claim_C10_counterexample :
    construct "test" exReaderNeg = .ok exModelNeg ∧
    exModelNeg.getSize.x = -2 ∧ exModelNeg.getSize.x < 0 := by
  have hsz : exModelNeg.getSize = ⟨-2, -2, 1⟩ := by
    norm_num [DetectorModel.getSize, updMax, updMin, exModelNeg, DetectorModel.getSensorSize,
      DetectorModel.getChipSize, DetectorModel.getCenter, DetectorModel.getSensorCenter,
      DetectorModel.getChipCenter, DetectorModel.getSupportLayers, stackLayers]
  refine ⟨?_, by rw [hsz], by rw [hsz]; norm_num⟩
  norm_num +decide [construct, exReaderNeg, exModelNeg, ConfigReader.getHeaderConfiguration,
    ConfigReader.getConfigurationsNamed, getUPair, getV2, getScalar, getScalarD, getStrD,
    getV2D, getV3, Configuration.get?, findVal, resolveImplantSize, readSupports, readSupport, readSupportOffset,
    lowerString]

/-! ### The configuration merge -/

theorem splitConfigs_eq (g : Configuration) (cs : List Configuration) :
    splitConfigs g cs =
      ((cs.filter (fun c => c.name = "")).foldl Configuration.merge g,
       cs.filter (fun c => ¬ c.name = "")) := by
  induction cs generalizing g with
  | nil => rfl
  | cons c cs ih =>
    by_cases h : c.name = "" <;>
      simp [splitConfigs, h, ih, List.filter_cons]

theorem foldl_merge_name (g : Configuration) (us : List Configuration) :
    (us.foldl Configuration.merge g).name = g.name := by
  induction us generalizing g with
  | nil => rfl
  | cons u us ih => simp [List.foldl_cons, ih, Configuration.merge]

theorem foldl_merge_entries (g : Configuration) (us : List Configuration) :
    (us.foldl Configuration.merge g).entries =
      (us.reverse.map Configuration.entries).flatten ++ g.entries := by
  induction us generalizing g with
  | nil => simp
  | cons u us ih =>
    simp [List.foldl_cons, ih, Configuration.merge]

/-- C8: `getConfigurations` returns the merged global section — all unnamed
sections merged into the header, a later section's entries preceding (and so
overriding, under first-match lookup) an earlier one's — followed by the named
sections in declaration order, unmodified; on the two-unnamed-plus-support
example the result is the merged global section then the support section. -/
theorem claim_C8 :
    (∀ m : DetectorModel,
      m.getConfigurations =
        mergedGlobal m.reader_ :: m.reader_.sections.filter (fun c => ¬ c.name = "")) ∧
    (∀ m : DetectorModel,
      (mergedGlobal m.reader_).name = m.reader_.header.name ∧
      (mergedGlobal m.reader_).entries =
        (((m.reader_.sections.filter (fun c => c.name = "")).reverse.map
            Configuration.entries).flatten ++ m.reader_.header.entries)) ∧
    exModelMerge.getConfigurations =
      [⟨"", [("B", .scalar 2), ("A", .scalar 1)]⟩,
       ⟨"support", [("thickness", .scalar 1)]⟩] ∧
    (exModelMerge.getConfigurations.head?.map (fun c => (c.get? "A", c.get? "B"))) =
      some (some (.scalar 1), some (.scalar 2)) := by
  refine ⟨?_, ?_, ?_, ?_⟩
  · intro m
    simp [DetectorModel.getConfigurations, splitConfigs_eq, mergedGlobal,
      ConfigReader.getHeaderConfiguration]
  · intro m
    exact ⟨foldl_merge_name _ _, foldl_merge_entries _ _⟩
  · simp +decide [DetectorModel.getConfigurations, splitConfigs, exModelMerge, exReaderMerge,
      Configuration.merge, ConfigReader.getHeaderConfiguration]
  · simp +decide [DetectorModel.getConfigurations, splitConfigs, exModelMerge, exReaderMerge,
      Configuration.merge, ConfigReader.getHeaderConfiguration, Configuration.get?, findVal]

/-! ### Error shapes of the reads -/

theorem getScalar_error (c : Configuration) (k : String) (e : ConfigError)
    (h : getScalar c k = .error e) : e = .missingKey k ∨ e = .mismatch k := by
  unfold getScalar at h
  cases hg : c.get? k with
  | none =>
    rw [hg] at h
    exact Or.inl (Except.error.inj h).symm
  | some val =>
    cases val <;> rw [hg] at h <;>
      first
        | exact Or.inr (Except.error.inj h).symm
        | exact Except.noConfusion h

theorem getV2_error (c : Configuration) (k : String) (e : ConfigError)
    (h : getV2 c k = .error e) : e = .missingKey k ∨ e = .mismatch k := by
  unfold getV2 at h
  cases hg : c.get? k with
  | none =>
    rw [hg] at h
    exact Or.inl (Except.error.inj h).symm
  | some val =>
    cases val <;> rw [hg] at h <;>
      first
        | exact Or.inr (Except.error.inj h).symm
        | exact Except.noConfusion h

theorem getV3_error (c : Configuration) (k : String) (e : ConfigError)
    (h : getV3 c k = .error e) : e = .missingKey k ∨ e = .mismatch k := by
  unfold getV3 at h
  cases hg : c.get? k with
  | none =>
    rw [hg] at h
    exact Or.inl (Except.error.inj h).symm
  | some val =>
    cases val <;> rw [hg] at h <;>
      first
        | exact Or.inr (Except.error.inj h).symm
        | exact Except.noConfusion h

theorem getScalarD_error (c : Configuration) (k : String) (d : ℚ) (e : ConfigError)
    (h : getScalarD c k d = .error e) : e = .mismatch k := by
  unfold getScalarD at h
  cases hg : c.get? k with
  | none => rw [hg] at h; exact Except.noConfusion h
  | some val =>
    cases val <;> rw [hg] at h <;>
      first
        | exact (Except.error.inj h).symm
        | exact Except.noConfusion h

theorem getV2D_error (c : Configuration) (k : String) (d : V2) (e : ConfigError)
    (h : getV2D c k d = .error e) : e = .mismatch k := by
  unfold getV2D at h
  cases hg : c.get? k with
  | none => rw [hg] at h; exact Except.noConfusion h
  | some val =>
    cases val <;> rw [hg] at h <;>
      first
        | exact (Except.error.inj h).symm
        | exact Except.noConfusion h

theorem getStrD_error (c : Configuration) (k : String) (d : String) (e : ConfigError)
    (h : getStrD c k d = .error e) : e = .mismatch k := by
  unfold getStrD at h
  cases hg : c.get? k with
  | none => rw [hg] at h; exact Except.noConfusion h
  | some val =>
    cases val <;> rw [hg] at h <;>
      first
        | exact (Except.error.inj h).symm
        | exact Except.noConfusion h

theorem resolveImplantSize_error (c : Configuration) (p : V2) (e : ConfigError)
    (h : resolveImplantSize c p = .error e) : e = .mismatch "implant_size" := by
  unfold resolveImplantSize at h
  cases h3 : getV3 c "implant_size" with
  | ok v => rw [h3] at h; exact Except.noConfusion h
  | error e3 =>
    rw [h3] at h
    cases h2 : getV2D c "implant_size" p with
    | ok a =>
      rw [h2] at h
      simp at h
    | error e2 =>
      rw [h2] at h
      simp at h
      subst h
      exact getV2D_error c "implant_size" p e2 h2


theorem readSupportOffset_error (c : Configuration) (loc : String) (e : ConfigError)
    (h : readSupportOffset c loc = .error e) :
    e = .missingKey "offset" ∨ e = .mismatch "offset" := by
  unfold readSupportOffset at h
  by_cases habs : loc = "absolute"
  · rw [if_pos habs] at h
    exact getV3_error c "offset" e h
  · rw [if_neg habs] at h
    cases h5 : getV2D c "offset" ⟨0, 0⟩ with
    | error e5 =>
      rw [h5] at h
      simp at h
      subst h
      exact Or.inr (getV2D_error c "offset" ⟨0, 0⟩ e5 h5)
    | ok xy =>
      rw [h5] at h
      exact Except.noConfusion h

theorem readSupport_error_shape (c : Configuration) (e : ConfigError)
    (h : readSupport c = .error e) :
    (∃ k, e = .missingKey k ∨ e = .mismatch k) ∨ e = .invalidValue "location" := by
  unfold readSupport at h
  cases h1 : getScalar c "thickness" with
  | error e1 =>
    rw [h1] at h
    simp only [exceptBindErr] at h
    cases Except.error.inj h
    exact Or.inl ⟨"thickness", getScalar_error c "thickness" _ h1⟩
  | ok t =>
    rw [h1] at h
    simp only [exceptBindOk] at h
    cases h2 : getV2 c "size" with
    | error e2 =>
      rw [h2] at h
      simp only [exceptBindErr] at h
      cases Except.error.inj h
      exact Or.inl ⟨"size", getV2_error c "size" _ h2⟩
    | ok sz =>
      rw [h2] at h
      simp only [exceptBindOk] at h
      cases h3 : getStrD c "location" "chip" with
      | error e3 =>
        rw [h3] at h
        simp only [exceptBindErr] at h
        cases Except.error.inj h
        exact Or.inl ⟨"location", Or.inr (getStrD_error c "location" "chip" _ h3)⟩
      | ok loc0 =>
        rw [h3] at h
        simp only [exceptBindOk] at h
        by_cases hval : ¬(lowerString loc0 = "sensor" ∨ lowerString loc0 = "chip" ∨
            lowerString loc0 = "absolute")
        · rw [if_pos hval] at h
          simp only [exceptThrow, exceptBindErr] at h
          cases Except.error.inj h
          exact Or.inr rfl
        · rw [if_neg hval] at h
          simp only [exceptPure, exceptBindOk] at h
          cases h4 : readSupportOffset c (lowerString loc0) with
          | error e4 =>
            rw [h4] at h
            simp only [exceptBindErr] at h
            cases Except.error.inj h
            exact Or.inl ⟨"offset", readSupportOffset_error c (lowerString loc0) _ h4⟩
          | ok off =>
            rw [h4] at h
            simp only [exceptBindOk] at h
            cases h6 : getStrD c "material" "g10" with
            | error e6 =>
              rw [h6] at h
              simp only [exceptBindErr] at h
              cases Except.error.inj h
              exact Or.inl ⟨"material", Or.inr (getStrD_error c "material" "g10" _ h6)⟩
            | ok mat0 =>
              rw [h6] at h
              simp only [exceptBindOk] at h
              cases h7 : getV2D c "hole_size" ⟨0, 0⟩ with
              | error e7 =>
                rw [h7] at h
                simp only [exceptBindErr] at h
                cases Except.error.inj h
                exact Or.inl ⟨"hole_size", Or.inr (getV2D_error c "hole_size" ⟨0, 0⟩ _ h7)⟩
              | ok hs =>
                rw [h7] at h
                simp only [exceptBindOk] at h
                cases h8 : getV2D c "hole_offset" ⟨0, 0⟩ with
                | error e8 =>
                  rw [h8] at h
                  simp only [exceptBindErr] at h
                  cases Except.error.inj h
                  exact Or.inl ⟨"hole_offset", Or.inr (getV2D_error c "hole_offset" ⟨0, 0⟩ _ h8)⟩
                | ok ho =>
                  rw [h8] at h
                  simp only [exceptBindOk, exceptPure] at h
                  exact Except.noConfusion h

theorem readSupports_error_shape (cs : List Configuration) (e : ConfigError)
    (h : readSupports cs = .error e) :
    (∃ k, e = .missingKey k ∨ e = .mismatch k) ∨ e = .invalidValue "location" := by
  induction cs with
  | nil => exact Except.noConfusion h
  | cons c cs ih =>
    unfold readSupports at h
    cases h1 : readSupport c with
    | error e1 =>
      rw [h1] at h
      simp only [exceptBindErr] at h
      cases Except.error.inj h
      exact readSupport_error_shape c _ h1
    | ok l =>
      rw [h1] at h
      simp only [exceptBindOk] at h
      cases h2 : readSupports cs with
      | error e2 =>
        rw [h2] at h
        simp only [exceptBindErr] at h
        cases Except.error.inj h
        exact ih h2
      | ok ls =>
        rw [h2] at h
        simp only [exceptBindOk, exceptPure] at h
        exact Except.noConfusion h

/-! ### Reductions of the constructor -/

theorem construct_after_implant (ty : String) (r : ConfigReader) (np : ℕ × ℕ) (p : V2)
    (t d et eb el er : ℚ) (v : V3)
    (h1 : getUPair r.header "number_of_pixels" = .ok np)
    (h2 : getV2 r.header "pixel_size" = .ok p)
    (h3 : getScalar r.header "sensor_thickness" = .ok t)
    (h4 : getScalarD r.header "sensor_excess" 0 = .ok d)
    (h5 : getScalarD r.header "sensor_excess_top" d = .ok et)
    (h6 : getScalarD r.header "sensor_excess_bottom" d = .ok eb)
    (h7 : getScalarD r.header "sensor_excess_left" d = .ok el)
    (h8 : getScalarD r.header "sensor_excess_right" d = .ok er)
    (h9 : resolveImplantSize r.header p = .ok v) :
    construct ty r =
      (if v.x > p.x ∨ v.y > p.y then Except.error (ConfigError.invalidValue "implant_size")
       else if v.z > t then Except.error (ConfigError.invalidValue "implant_size")
       else
         (getStrD r.header "implant_material" "aluminum" >>= fun mat =>
           getV2D r.header "implant_offset" ⟨0, 0⟩ >>= fun o =>
             (if |o.x| + v.x / 2 > p.x / 2 ∨ |o.y| + v.y / 2 > p.y / 2 then
                Except.error (ConfigError.invalidValue "implant_offset")
              else
                (getScalarD r.header "chip_thickness" 0 >>= fun ct =>
                  readSupports (r.getConfigurationsNamed "support") >>= fun ls =>
                    Except.ok { type_ := ty, reader_ := r, number_of_pixels_ := np,
                                pixel_size_ := p, sensor_thickness_ := t,
                                sensor_excess_top_ := et, sensor_excess_bottom_ := eb,
                                sensor_excess_left_ := el, sensor_excess_right_ := er,
                                implant_size_ := v, implant_material_ := mat,
                                implant_offset_ := o, chip_thickness_ := ct,
                                support_layers_ := ls })))) := by
  by_cases hc1 : v.x > p.x ∨ v.y > p.y
  · simp only [construct, ConfigReader.getHeaderConfiguration, h1, h2, h3, h4, h5, h6, h7, h8,
      h9, exceptBindOk, if_pos hc1, exceptThrow, exceptBindErr]
  · by_cases hc2 : v.z > t
    · simp only [construct, ConfigReader.getHeaderConfiguration, h1, h2, h3, h4, h5, h6, h7, h8,
        h9, exceptBindOk, if_neg hc1, if_pos hc2, exceptPure, exceptThrow, exceptBindErr,
        exceptBindOk]
    · simp only [construct, ConfigReader.getHeaderConfiguration, h1, h2, h3, h4, h5, h6, h7, h8,
        h9, exceptBindOk, if_neg hc1, if_neg hc2, exceptPure]
      cases hm : getStrD r.header "implant_material" "aluminum" with
      | error em => simp only [hm, exceptBindErr]
      | ok mat =>
        simp only [hm, exceptBindOk]
        cases ho : getV2D r.header "implant_offset" ⟨0, 0⟩ with
        | error eo => simp only [ho, exceptBindErr]
        | ok o =>
          simp only [ho, exceptBindOk]
          by_cases hc3 : |o.x| + v.x / 2 > p.x / 2 ∨ |o.y| + v.y / 2 > p.y / 2
          · simp only [if_pos hc3, exceptThrow, exceptBindErr]
          · simp only [if_neg hc3, exceptPure, exceptBindOk]

theorem bind_error {α β : Type} (a : Except ConfigError α) (f : α → Except ConfigError β)
    (e : ConfigError) (h : (a >>= f) = .error e) :
    a = .error e ∨ ∃ x, a = .ok x ∧ f x = .error e := by
  cases ha : a with
  | error e2 =>
    rw [ha] at h
    simp only [exceptBindErr] at h
    cases Except.error.inj h
    exact Or.inl rfl
  | ok x =>
    rw [ha] at h
    simp only [exceptBindOk] at h
    exact Or.inr ⟨x, rfl, h⟩

/-- C4: given that the reads preceding the implant checks succeed, construction
fails with InvalidValue naming `implant_size` exactly when the resolved implant
size exceeds the pixel pitch in x or y or the sensor thickness in z, and fails
with InvalidValue naming `implant_offset` exactly when the size checks pass but
the implant leaves the pixel cell; all bounds are inclusive: an implant size
exactly equal to the pixel size with offset `(0, 0)` passes both checks. -/
theorem claim_C4 (ty : String) (r : ConfigReader) (np : ℕ × ℕ) (p : V2)
    (t d et eb el er : ℚ) (v : V3)
    (h1 : getUPair r.header "number_of_pixels" = .ok np)
    (h2 : getV2 r.header "pixel_size" = .ok p)
    (h3 : getScalar r.header "sensor_thickness" = .ok t)
    (h4 : getScalarD r.header "sensor_excess" 0 = .ok d)
    (h5 : getScalarD r.header "sensor_excess_top" d = .ok et)
    (h6 : getScalarD r.header "sensor_excess_bottom" d = .ok eb)
    (h7 : getScalarD r.header "sensor_excess_left" d = .ok el)
    (h8 : getScalarD r.header "sensor_excess_right" d = .ok er)
    (h9 : resolveImplantSize r.header p = .ok v) :
    ((construct ty r = .error (.invalidValue "implant_size")) ↔
      (v.x > p.x ∨ v.y > p.y ∨ v.z > t)) ∧
    (∀ (mat : String) (o : V2),
      getStrD r.header "implant_material" "aluminum" = .ok mat →
      getV2D r.header "implant_offset" ⟨0, 0⟩ = .ok o →
      ((construct ty r = .error (.invalidValue "implant_offset")) ↔
        (¬(v.x > p.x ∨ v.y > p.y ∨ v.z > t) ∧
         (|o.x| + v.x / 2 > p.x / 2 ∨ |o.y| + v.y / 2 > p.y / 2)))) ∧
    ((v.x = p.x ∧ v.y = p.y ∧ v.z ≤ t) →
      construct ty r ≠ .error (.invalidValue "implant_size") ∧
      (∀ o : V2, getV2D r.header "implant_offset" ⟨0, 0⟩ = .ok o → o = ⟨0, 0⟩ →
        construct ty r ≠ .error (.invalidValue "implant_offset"))) := by
  have hred := construct_after_implant ty r np p t d et eb el er v h1 h2 h3 h4 h5 h6 h7 h8 h9
  have hiff1 : (construct ty r = .error (.invalidValue "implant_size")) ↔
      (v.x > p.x ∨ v.y > p.y ∨ v.z > t) := by
    rw [hred]
    constructor
    · intro h
      by_cases h12 : v.x > p.x ∨ v.y > p.y
      · tauto
      · by_cases hz : v.z > t
        · tauto
        · exfalso
          rw [if_neg h12, if_neg hz] at h
          rcases bind_error _ _ _ h with hm | ⟨mat, hm, h⟩
          · cases getStrD_error _ _ _ _ hm
          rcases bind_error _ _ _ h with ho | ⟨o, ho, h⟩
          · cases getV2D_error _ _ _ _ ho
          by_cases hc3 : |o.x| + v.x / 2 > p.x / 2 ∨ |o.y| + v.y / 2 > p.y / 2
          · rw [if_pos hc3] at h
            have := Except.error.inj h
            simp at this
          · rw [if_neg hc3] at h
            rcases bind_error _ _ _ h with hct | ⟨ct, hct, h⟩
            · cases getScalarD_error _ _ _ _ hct
            rcases bind_error _ _ _ h with hls | ⟨ls, hls, h⟩
            · rcases readSupports_error_shape _ _ hls with ⟨k, hk | hk⟩ | hk <;> simp at hk
            · exact Except.noConfusion h
    · intro hc
      by_cases h12 : v.x > p.x ∨ v.y > p.y
      · rw [if_pos h12]
      · have hz : v.z > t := by tauto
        rw [if_neg h12, if_pos hz]
  refine ⟨hiff1, ?_, ?_⟩
  · intro mat o hm ho
    rw [hred]
    constructor
    · intro h
      by_cases h12 : v.x > p.x ∨ v.y > p.y
      · rw [if_pos h12] at h
        have := Except.error.inj h
        simp at this
      · by_cases hz : v.z > t
        · rw [if_neg h12, if_pos hz] at h
          have := Except.error.inj h
          simp at this
        · refine ⟨by tauto, ?_⟩
          rw [if_neg h12, if_neg hz, hm, exceptBindOk, ho, exceptBindOk] at h
          by_cases hc3 : |o.x| + v.x / 2 > p.x / 2 ∨ |o.y| + v.y / 2 > p.y / 2
          · exact hc3
          · exfalso
            rw [if_neg hc3] at h
            rcases bind_error _ _ _ h with hct | ⟨ct, hct, h⟩
            · cases getScalarD_error _ _ _ _ hct
            rcases bind_error _ _ _ h with hls | ⟨ls, hls, h⟩
            · rcases readSupports_error_shape _ _ hls with ⟨k, hk | hk⟩ | hk <;> simp at hk
            · exact Except.noConfusion h
    · rintro ⟨hno, hviol⟩
      have h12 : ¬(v.x > p.x ∨ v.y > p.y) := by tauto
      have hz : ¬(v.z > t) := by tauto
      rw [if_neg h12, if_neg hz, hm, exceptBindOk, ho, exceptBindOk, if_pos hviol]
  · rintro ⟨hx, hy, hz⟩
    have hnx : ¬(v.x > p.x) := by rw [hx]; exact lt_irrefl _
    have hny : ¬(v.y > p.y) := by rw [hy]; exact lt_irrefl _
    have hnz : ¬(v.z > t) := not_lt.mpr hz
    constructor
    · simp only [ne_eq, hiff1]
      tauto
    · intro o ho hzero h
      subst hzero
      rw [hred, if_neg (by tauto), if_neg hnz] at h
      rcases bind_error _ _ _ h with hm | ⟨mat, hm, h⟩
      · cases getStrD_error _ _ _ _ hm
      rw [ho, exceptBindOk] at h
      have hc3 : ¬(|(0 : ℚ)| + v.x / 2 > p.x / 2 ∨ |(0 : ℚ)| + v.y / 2 > p.y / 2) := by
        rw [hx, hy]
        simp
      rw [if_neg hc3] at h
      rcases bind_error _ _ _ h with hct | ⟨ct, hct, h⟩
      · cases getScalarD_error _ _ _ _ hct
      rcases bind_error _ _ _ h with hls | ⟨ls, hls, h⟩
      · rcases readSupports_error_shape _ _ hls with ⟨k, hk | hk⟩ | hk <;> simp at hk
      · exact Except.noConfusion h

/-- C4 witness: a 3D implant size wider than the pixel pitch is rejected with
InvalidValue naming `implant_size`. -/
theorem claim_C4_witness :
    construct "test" exReaderBigImplant = .error (.invalidValue "implant_size") := by
  have h := claim_C4 "test" exReaderBigImplant (1, 1) ⟨1, 1⟩ 1 0 0 0 0 0 ⟨2, 1, 0⟩
    rfl rfl rfl rfl rfl rfl rfl rfl rfl
  exact h.1.mpr (Or.inl (by norm_num))

/-- C5: the only internally caught failure is the 3D `implant_size` read — when
the key is absent the fallback yields the pixel size with z = 0, a 2D value is
accepted with z = 0, and any other stored shape makes the fallback 2D read fail
too, with an uncaught SchemaMismatch; an error of the implant-size resolution
(and of any other header read) propagates out of construction unchanged. -/
theorem claim_C5 :
    (∀ (c : Configuration) (p : V2),
      (c.get? "implant_size" = none → resolveImplantSize c p = .ok ⟨p.x, p.y, 0⟩) ∧
      (∀ x y z : ℚ, c.get? "implant_size" = some (.vec3 x y z) →
        resolveImplantSize c p = .ok ⟨x, y, z⟩) ∧
      (∀ x y : ℚ, c.get? "implant_size" = some (.vec2 x y) →
        resolveImplantSize c p = .ok ⟨x, y, 0⟩) ∧
      (∀ q : ℚ, c.get? "implant_size" = some (.scalar q) →
        resolveImplantSize c p = .error (.mismatch "implant_size")) ∧
      (∀ s : String, c.get? "implant_size" = some (.str s) →
        resolveImplantSize c p = .error (.mismatch "implant_size")) ∧
      (∀ a b : ℕ, c.get? "implant_size" = some (.upair a b) →
        resolveImplantSize c p = .error (.mismatch "implant_size"))) ∧
    (∀ (ty : String) (r : ConfigReader) (np : ℕ × ℕ) (p : V2) (t d et eb el er : ℚ)
        (e : ConfigError),
      getUPair r.header "number_of_pixels" = .ok np →
      getV2 r.header "pixel_size" = .ok p →
      getScalar r.header "sensor_thickness" = .ok t →
      getScalarD r.header "sensor_excess" 0 = .ok d →
      getScalarD r.header "sensor_excess_top" d = .ok et →
      getScalarD r.header "sensor_excess_bottom" d = .ok eb →
      getScalarD r.header "sensor_excess_left" d = .ok el →
      getScalarD r.header "sensor_excess_right" d = .ok er →
      resolveImplantSize r.header p = .error e →
      construct ty r = .error e) := by
  constructor
  · intro c p
    refine ⟨?_, ?_, ?_, ?_, ?_, ?_⟩
    · intro hg
      simp [resolveImplantSize, getV3, getV2D, hg]
    · intro x y z hg
      simp [resolveImplantSize, getV3, getV2D, hg]
    · intro x y hg
      simp [resolveImplantSize, getV3, getV2D, hg]
    · intro q hg
      simp [resolveImplantSize, getV3, getV2D, hg]
    · intro s hg
      simp [resolveImplantSize, getV3, getV2D, hg]
    · intro a b hg
      simp [resolveImplantSize, getV3, getV2D, hg]
  · intro ty r np p t d et eb el er e h1 h2 h3 h4 h5 h6 h7 h8 h9
    simp only [construct, ConfigReader.getHeaderConfiguration, h1, h2, h3, h4, h5, h6, h7, h8,
      exceptBindOk, h9, exceptBindErr]

/-- C5 witness: a scalar-valued `implant_size` fails the 3D read, then the
uncaught fallback 2D read fails with SchemaMismatch, which propagates. -/
theorem claim_C5_witness :
    construct "test" exReaderScalarImplant = .error (.mismatch "implant_size") :=
  claim_C5.2 "test" exReaderScalarImplant (1, 1) ⟨1, 1⟩ 1 0 0 0 0 0 (.mismatch "implant_size")
    rfl rfl rfl rfl rfl rfl rfl rfl rfl

theorem bind_ok_inv {α β : Type} (a : Except ConfigError α) (f : α → Except ConfigError β)
    (b : β) (h : (a >>= f) = .ok b) : ∃ x, a = .ok x ∧ f x = .ok b := by
  cases ha : a with
  | error e =>
    rw [ha] at h
    simp only [exceptBindErr] at h
    exact Except.noConfusion h
  | ok x =>
    rw [ha] at h
    simp only [exceptBindOk] at h
    exact ⟨x, rfl, h⟩

theorem construct_ok_inv (ty : String) (r : ConfigReader) (m : DetectorModel)
    (h : construct ty r = .ok m) :
    m.type_ = ty ∧ m.reader_ = r ∧
    getUPair r.header "number_of_pixels" = .ok m.number_of_pixels_ ∧
    getV2 r.header "pixel_size" = .ok m.pixel_size_ ∧
    getScalar r.header "sensor_thickness" = .ok m.sensor_thickness_ ∧
    (∃ d, getScalarD r.header "sensor_excess" 0 = .ok d ∧
      getScalarD r.header "sensor_excess_top" d = .ok m.sensor_excess_top_ ∧
      getScalarD r.header "sensor_excess_bottom" d = .ok m.sensor_excess_bottom_ ∧
      getScalarD r.header "sensor_excess_left" d = .ok m.sensor_excess_left_ ∧
      getScalarD r.header "sensor_excess_right" d = .ok m.sensor_excess_right_) ∧
    resolveImplantSize r.header m.pixel_size_ = .ok m.implant_size_ ∧
    getStrD r.header "implant_material" "aluminum" = .ok m.implant_material_ ∧
    getV2D r.header "implant_offset" ⟨0, 0⟩ = .ok m.implant_offset_ ∧
    getScalarD r.header "chip_thickness" 0 = .ok m.chip_thickness_ ∧
    readSupports (r.getConfigurationsNamed "support") = .ok m.support_layers_ := by
  simp only [construct, ConfigReader.getHeaderConfiguration] at h
  rcases bind_ok_inv _ _ _ h with ⟨np, h1, h⟩
  rcases bind_ok_inv _ _ _ h with ⟨p, h2, h⟩
  rcases bind_ok_inv _ _ _ h with ⟨t, h3, h⟩
  rcases bind_ok_inv _ _ _ h with ⟨d, h4, h⟩
  rcases bind_ok_inv _ _ _ h with ⟨et, h5, h⟩
  rcases bind_ok_inv _ _ _ h with ⟨eb, h6, h⟩
  rcases bind_ok_inv _ _ _ h with ⟨el, h7, h⟩
  rcases bind_ok_inv _ _ _ h with ⟨er, h8, h⟩
  rcases bind_ok_inv _ _ _ h with ⟨v, h9, h⟩
  by_cases hc1 : v.x > p.x ∨ v.y > p.y
  · rw [if_pos hc1] at h
    simp only [exceptThrow, exceptBindErr] at h
    exact Except.noConfusion h
  rw [if_neg hc1] at h
  simp only [exceptPure, exceptBindOk] at h
  by_cases hc2 : v.z > t
  · rw [if_pos hc2] at h
    simp only [exceptThrow, exceptBindErr] at h
    exact Except.noConfusion h
  rw [if_neg hc2] at h
  rcases bind_ok_inv _ _ _ h with ⟨mat, hmat, h⟩
  rcases bind_ok_inv _ _ _ h with ⟨o, hoff, h⟩
  by_cases hc3 : |o.x| + v.x / 2 > p.x / 2 ∨ |o.y| + v.y / 2 > p.y / 2
  · rw [if_pos hc3] at h
    simp only [exceptThrow, exceptBindErr] at h
    exact Except.noConfusion h
  rw [if_neg hc3] at h
  rcases bind_ok_inv _ _ _ h with ⟨ct, hct, h⟩
  rcases bind_ok_inv _ _ _ h with ⟨ls, hls, h⟩
  cases Except.ok.inj h
  exact ⟨rfl, rfl, h1, h2, h3, ⟨d, h4, h5, h6, h7, h8⟩, h9, hmat, hoff, hct, hls⟩

theorem getScalar_some (c : Configuration) (k : String) (v : ℚ)
    (h : c.get? k = some (.scalar v)) : getScalar c k = .ok v := by
  simp [getScalar, h]

theorem getScalar_none (c : Configuration) (k : String)
    (h : c.get? k = none) : getScalar c k = .error (.missingKey k) := by
  simp [getScalar, h]

theorem getV2_some (c : Configuration) (k : String) (x y : ℚ)
    (h : c.get? k = some (.vec2 x y)) : getV2 c k = .ok ⟨x, y⟩ := by
  simp [getV2, h]

theorem getV2_none (c : Configuration) (k : String)
    (h : c.get? k = none) : getV2 c k = .error (.missingKey k) := by
  simp [getV2, h]

theorem getV3_none (c : Configuration) (k : String)
    (h : c.get? k = none) : getV3 c k = .error (.missingKey k) := by
  simp [getV3, h]

theorem getStrD_some (c : Configuration) (k dflt : String) (s : String)
    (h : c.get? k = some (.str s)) : getStrD c k dflt = .ok s := by
  simp [getStrD, h]

theorem getStrD_none (c : Configuration) (k dflt : String)
    (h : c.get? k = none) : getStrD c k dflt = .ok dflt := by
  simp [getStrD, h]

theorem getV2D_none (c : Configuration) (k : String) (dflt : V2)
    (h : c.get? k = none) : getV2D c k dflt = .ok dflt := by
  simp [getV2D, h]

theorem getScalarD_some (c : Configuration) (k : String) (dflt v : ℚ)
    (h : c.get? k = some (.scalar v)) : getScalarD c k dflt = .ok v := by
  simp [getScalarD, h]

theorem getScalarD_none (c : Configuration) (k : String) (dflt : ℚ)
    (h : c.get? k = none) : getScalarD c k dflt = .ok dflt := by
  simp [getScalarD, h]

/-- C7: one shared `sensor_excess` default is read (0 when absent), then each
per-side key is read individually with the shared value as its default;
`sensor_excess = 5` alone makes all four stored excesses 5, and additionally
`sensor_excess_top = 2` makes the top excess 2 with the other three still 5. -/
theorem claim_C7 :
    (∀ (ty : String) (r : ConfigReader) (m : DetectorModel) (d : ℚ),
      construct ty r = .ok m →
      getScalarD r.header "sensor_excess" 0 = .ok d →
      getScalarD r.header "sensor_excess_top" d = .ok m.sensor_excess_top_ ∧
      getScalarD r.header "sensor_excess_bottom" d = .ok m.sensor_excess_bottom_ ∧
      getScalarD r.header "sensor_excess_left" d = .ok m.sensor_excess_left_ ∧
      getScalarD r.header "sensor_excess_right" d = .ok m.sensor_excess_right_) ∧
    (∀ c : Configuration, c.get? "sensor_excess" = none →
      getScalarD c "sensor_excess" 0 = .ok 0) ∧
    (construct "test" exReaderEx5 = .ok exModelEx5 ∧
      exModelEx5.sensor_excess_top_ = 5 ∧ exModelEx5.sensor_excess_bottom_ = 5 ∧
      exModelEx5.sensor_excess_left_ = 5 ∧ exModelEx5.sensor_excess_right_ = 5) ∧
    (construct "test" exReaderEx52 = .ok exModelEx52 ∧
      exModelEx52.sensor_excess_top_ = 2 ∧ exModelEx52.sensor_excess_bottom_ = 5 ∧
      exModelEx52.sensor_excess_left_ = 5 ∧ exModelEx52.sensor_excess_right_ = 5) := by
  refine ⟨?_, ?_, ⟨?_, rfl, rfl, rfl, rfl⟩, ⟨?_, rfl, rfl, rfl, rfl⟩⟩
  · intro ty r m d h hd
    rcases construct_ok_inv ty r m h with
      ⟨-, -, -, -, -, ⟨d2, hd2, ht, hb, hl, hr⟩, -, -, -, -, -⟩
    cases Except.ok.inj (hd2.symm.trans hd)
    exact ⟨ht, hb, hl, hr⟩
  · intro c hg
    exact getScalarD_none c "sensor_excess" 0 hg
  · norm_num +decide [construct, exReaderEx5, exModelEx5, ConfigReader.getHeaderConfiguration,
      ConfigReader.getConfigurationsNamed, getUPair, getV2, getScalar, getScalarD, getStrD,
      getV2D, getV3, Configuration.get?, findVal, resolveImplantSize, readSupports, readSupport,
      readSupportOffset, lowerString]
  · norm_num +decide [construct, exReaderEx52, exModelEx52, ConfigReader.getHeaderConfiguration,
      ConfigReader.getConfigurationsNamed, getUPair, getV2, getScalar, getScalarD, getStrD,
      getV2D, getV3, Configuration.get?, findVal, resolveImplantSize, readSupports, readSupport,
      readSupportOffset, lowerString]

/-- C7 witness: the general default-propagation part applied to the
`sensor_excess = 5` example. -/
theorem claim_C7_witness :
    getScalarD exReaderEx5.header "sensor_excess_top" 5 = .ok exModelEx5.sensor_excess_top_ ∧
    getScalarD exReaderEx5.header "sensor_excess_bottom" 5 =
      .ok exModelEx5.sensor_excess_bottom_ ∧
    getScalarD exReaderEx5.header "sensor_excess_left" 5 = .ok exModelEx5.sensor_excess_left_ ∧
    getScalarD exReaderEx5.header "sensor_excess_right" 5 =
      .ok exModelEx5.sensor_excess_right_ :=
  claim_C7.1 "test" exReaderEx5 exModelEx5 5 claim_C7.2.2.1.1 rfl

theorem readSupports_get (cs : List Configuration) (ls : List SupportLayer)
    (h : readSupports cs = .ok ls) :
    ls.length = cs.length ∧
    ∀ (i : ℕ) (c2 : Configuration), cs[i]? = some c2 → (readSupport c2).toOption = ls[i]? := by
  induction cs generalizing ls with
  | nil =>
    cases Except.ok.inj h
    refine ⟨rfl, ?_⟩
    intro i c2 hc
    simp at hc
  | cons c cs ih =>
    unfold readSupports at h
    rcases bind_ok_inv _ _ _ h with ⟨l, hl, h⟩
    rcases bind_ok_inv _ _ _ h with ⟨ls2, hls2, h⟩
    simp only [exceptPure] at h
    cases Except.ok.inj h
    rcases ih ls2 hls2 with ⟨hlen, hget⟩
    refine ⟨by simp [hlen], ?_⟩
    intro i c2 hc
    cases i with
    | zero =>
      simp only [List.getElem?_cons_zero, Option.some.injEq] at hc
      subst hc
      rw [hl]
      simp [Except.toOption]
    | succ n =>
      simp only [List.getElem?_cons_succ] at hc ⊢
      exact hget n c2 hc

/-- C6 (amended): for every `support` section, thickness and size are required;
location defaults to `chip`, is lower-cased, and a token outside
{sensor, chip, absolute} fails with InvalidValue naming `location`; an
absolute-located layer requires an explicit 3D offset while sensor/chip layers
read a 2D offset defaulting to zero with z forced to 0; material defaults to
`g10` (lower-cased) and the hole size and offset default to zero; the layers
are appended in declaration order, never reordered. -/
theorem claim_C6_amended :
    (∀ c : Configuration,
      (c.get? "thickness" = none → readSupport c = .error (.missingKey "thickness")) ∧
      (∀ t : ℚ, c.get? "thickness" = some (.scalar t) → c.get? "size" = none →
        readSupport c = .error (.missingKey "size")) ∧
      (∀ (t x y : ℚ) (s : String), c.get? "thickness" = some (.scalar t) →
        c.get? "size" = some (.vec2 x y) → c.get? "location" = some (.str s) →
        ¬(lowerString s = "sensor" ∨ lowerString s = "chip" ∨ lowerString s = "absolute") →
        readSupport c = .error (.invalidValue "location")) ∧
      (∀ (t x y : ℚ) (s : String), c.get? "thickness" = some (.scalar t) →
        c.get? "size" = some (.vec2 x y) → c.get? "location" = some (.str s) →
        lowerString s = "absolute" → c.get? "offset" = none →
        readSupport c = .error (.missingKey "offset")) ∧
      (∀ l : SupportLayer, readSupport c = .ok l →
        (l.location_ = "sensor" ∨ l.location_ = "chip" ∨ l.location_ = "absolute") ∧
        (c.get? "location" = none → l.location_ = "chip") ∧
        (∀ s : String, c.get? "location" = some (.str s) → l.location_ = lowerString s) ∧
        (c.get? "material" = none → l.material_ = "g10") ∧
        (∀ s : String, c.get? "material" = some (.str s) → l.material_ = lowerString s) ∧
        (c.get? "hole_size" = none → l.hole_size_ = ⟨0, 0⟩) ∧
        (c.get? "hole_offset" = none → l.hole_offset_ = ⟨0, 0⟩) ∧
        (¬ l.location_ = "absolute" → l.offset_.z = 0 ∧
          (c.get? "offset" = none → l.offset_ = ⟨0, 0, 0⟩)))) ∧
    (∀ (cs : List Configuration) (ls : List SupportLayer), readSupports cs = .ok ls →
      ls.length = cs.length ∧
      ∀ (i : ℕ) (c2 : Configuration), cs[i]? = some c2 →
        (readSupport c2).toOption = ls[i]?) ∧
    (∀ (ty : String) (r : ConfigReader) (m : DetectorModel), construct ty r = .ok m →
      readSupports (r.getConfigurationsNamed "support") = .ok m.support_layers_) := by
  refine ⟨?_, readSupports_get, ?_⟩
  swap
  · intro ty r m h
    exact (construct_ok_inv ty r m h).2.2.2.2.2.2.2.2.2.2
  intro c
  refine ⟨?_, ?_, ?_, ?_, ?_⟩
  · intro hn
    simp [readSupport, getScalar_none c "thickness" hn]
  · intro t ht hn
    simp [readSupport, getScalar_some c "thickness" t ht, getV2_none c "size" hn]
  · intro t x y s ht hsz hloc hbad
    simp only [readSupport, getScalar_some c "thickness" t ht, exceptBindOk,
      getV2_some c "size" x y hsz, getStrD_some c "location" "chip" s hloc]
    rw [if_pos hbad]
    simp
  · intro t x y s ht hsz hloc habs hoffn
    simp only [readSupport, getScalar_some c "thickness" t ht, exceptBindOk,
      getV2_some c "size" x y hsz, getStrD_some c "location" "chip" s hloc]
    rw [if_neg (not_not_intro (Or.inr (Or.inr habs)))]
    simp only [exceptPure, exceptBindOk]
    simp [readSupportOffset, habs, getV3_none c "offset" hoffn]
  · intro l h
    rcases bind_ok_inv _ _ _ h with ⟨t, ht, h⟩
    rcases bind_ok_inv _ _ _ h with ⟨sz, hsz, h⟩
    rcases bind_ok_inv _ _ _ h with ⟨loc0, hloc0, h⟩
    by_cases hval : ¬(lowerString loc0 = "sensor" ∨ lowerString loc0 = "chip" ∨
        lowerString loc0 = "absolute")
    · rw [if_pos hval] at h
      simp only [exceptThrow, exceptBindErr] at h
      exact Except.noConfusion h
    rw [if_neg hval] at h
    simp only [exceptPure, exceptBindOk] at h
    rcases bind_ok_inv _ _ _ h with ⟨off, hoff, h⟩
    rcases bind_ok_inv _ _ _ h with ⟨mat0, hmat, h⟩
    rcases bind_ok_inv _ _ _ h with ⟨hs, hhs, h⟩
    rcases bind_ok_inv _ _ _ h with ⟨ho2, hho, h⟩
    cases Except.ok.inj h
    rw [not_not] at hval
    refine ⟨hval, ?_, ?_, ?_, ?_, ?_, ?_, ?_⟩
    · intro hn
      cases Except.ok.inj ((getStrD_none c "location" "chip" hn).symm.trans hloc0)
      show lowerString "chip" = "chip"
      decide
    · intro s hss
      cases Except.ok.inj ((getStrD_some c "location" "chip" s hss).symm.trans hloc0)
      rfl
    · intro hn
      cases Except.ok.inj ((getStrD_none c "material" "g10" hn).symm.trans hmat)
      show lowerString "g10" = "g10"
      decide
    · intro s hss
      cases Except.ok.inj ((getStrD_some c "material" "g10" s hss).symm.trans hmat)
      rfl
    · intro hn
      cases Except.ok.inj ((getV2D_none c "hole_size" ⟨0, 0⟩ hn).symm.trans hhs)
      rfl
    · intro hn
      cases Except.ok.inj ((getV2D_none c "hole_offset" ⟨0, 0⟩ hn).symm.trans hho)
      rfl
    · intro hnabs
      unfold readSupportOffset at hoff
      rw [if_neg hnabs] at hoff
      cases hxy : getV2D c "offset" ⟨0, 0⟩ with
      | error e =>
        rw [hxy] at hoff
        exact Except.noConfusion hoff
      | ok xy =>
        rw [hxy] at hoff
        cases Except.ok.inj hoff
        refine ⟨rfl, ?_⟩
        intro hn
        cases Except.ok.inj ((getV2D_none c "offset" ⟨0, 0⟩ hn).symm.trans hxy)
        rfl

/-- C6 witness: a support section without a thickness key is rejected as
missing the required key. -/
theorem claim_C6_amended_witness :
    readSupport ⟨"support", []⟩ = .error (.missingKey "thickness") :=
  (claim_C6_amended.1 ⟨"support", []⟩).1 rfl

/-- C6 (counterexample): a location token outside the enum makes construction
fail with InvalidValue naming `location` — it is not a distinct
InvalidEnumValue. -/
theorem claim_C6_counterexample :
    construct "test" exReaderLoc = .error (.invalidValue "location") ∧
    construct "test" exReaderLoc ≠ .error (.invalidEnum "location") := by
  have h : construct "test" exReaderLoc = .error (.invalidValue "location") := by
    norm_num +decide [construct, exReaderLoc, ConfigReader.getHeaderConfiguration,
      ConfigReader.getConfigurationsNamed, getUPair, getV2, getScalar, getScalarD, getStrD,
      getV2D, getV3, Configuration.get?, findVal, resolveImplantSize, readSupports, readSupport,
      readSupportOffset, lowerString]
  refine ⟨h, ?_⟩
  rw [h]
  simp

/-- C2 witness: in the two-layer sensor stack, the second layer's center is
strictly lower than the first one's. -/
theorem claim_C2_amended_witness :
    exStackOut1.center_.z < exStackOut0.center_.z :=
  (claim_C2_amended exModelStack 0 1 exStackOut0 exStackOut1
    (by decide) (by decide)
    (by norm_num [DetectorModel.getSupportLayers, stackLayers, exModelStack, exStackOut0,
      DetectorModel.getSensorSize, DetectorModel.getChipSize, DetectorModel.getCenter])
    (by norm_num [DetectorModel.getSupportLayers, stackLayers, exModelStack, exStackOut1,
      DetectorModel.getSensorSize, DetectorModel.getChipSize, DetectorModel.getCenter])).1
    rfl rfl
